import Mathlib

/-!
Shallow embedding of the authentication/session core of the backend-node.js
repository: the controller functions in src/controllers/user.controller.js
(generateAccessAndRefereshTokens, loginuser, logOutUser, refreshAccessToken)
over an explicit user-record store. Collaborators that are not part of the
repository source (the jsonwebtoken codec, the bcrypt password check on the
user model, the Mongoose update cast) are modelled from the specification and
from the documented behaviour of those libraries; each such definition says so
in its doc comment.
-/

set_option autoImplicit false

namespace BackendNode

/-- Decoded JWT payload: subject id, issued-at, expiry. The controller reads
the subject under the key underscore-id, mirrored here as the field id. -/
structure Payload where
  id : Nat
  iat : Nat
  exp : Nat
deriving DecidableEq, Repr

/-- A signed token on the wire: its payload together with its signature.
Byte-for-byte equality of token strings is modelled as equality of this
structure. -/
structure Token where
  payload : Payload
  sig : Nat
deriving DecidableEq, Repr

/-- Modelled from the spec: environment-provided signing key for access
tokens, distinct from the refresh key (key separation, spec 4.1). -/
def ACCESS_TOKEN_SECRET : Nat := 11

/-- Modelled from the spec: environment-provided signing key for refresh
tokens. -/
def REFRESH_TOKEN_SECRET : Nat := 13

/-- Modelled from the spec: deterministic signature of a payload under a
secret key (spec 4.1: deterministic signature given a secret key). -/
def mac (secret : Nat) (p : Payload) : Nat :=
  ((secret * 1000003 + p.id) * 1000003 + p.iat) * 1000003 + p.exp

/-- Modelled from the spec: minting a signed token from a subject id, an
issued-at instant and an expiry instant (spec 4.1). -/
def sign (secret subj iat exp : Nat) : Token :=
  { payload := { id := subj, iat := iat, exp := exp }, sig := mac secret { id := subj, iat := iat, exp := exp } }

/-- Outcomes of structural token verification, per spec 4.1. -/
inductive VerifyError where
  | Malformed
  | Expired
  | InvalidSignature
deriving DecidableEq, Repr

/-- Message carried by a thrown verification error; the refresh controller
catches it and forwards the message in a 401 response. -/
def verifyErrMsg : VerifyError → String
  | .Malformed => "Malformed"
  | .Expired => "Expired"
  | .InvalidSignature => "InvalidSignature"

/-- Modelled from the spec: jwt.verify is a library call, not repository
source. Spec 4.1 gives the contract (fails InvalidSignature on a bad
signature, Expired when current time is at or after token expiry) and spec 8
states that tokens past their expiry fail with Expired regardless of
signature validity, so the expiry check is decided first. Malformed inputs
are not representable in this structured model, so the Malformed branch never
fires. On success the decoded subject id is returned. -/
def jwtVerify (secret now : Nat) (t : Token) : Except VerifyError Nat :=
  if t.payload.exp ≤ now then .error .Expired
  else if t.sig ≠ mac secret t.payload then .error .InvalidSignature
  else .ok t.payload.id

/-- Fixed configured lifetime of an access token (minutes-scale); the exact
value is environment configuration, not repository source. -/
def ACCESS_TOKEN_TTL : Nat := 900

/-- Fixed configured lifetime of a refresh token (days-scale). -/
def REFRESH_TOKEN_TTL : Nat := 864000

/-- A persisted User document: the schema fields the session core touches
(src/models/user.model.js is not under src, so the field list follows the
spec, section 6). refreshToken is the stored current refresh credential;
none models both null and undefined. -/
structure StoredUser where
  id : Nat
  username : String
  email : String
  password : String
  fullName : String
  refreshToken : Option Token
deriving DecidableEq, Repr

/-- The user-record store: the list of persisted User documents. -/
abbrev DB := List StoredUser

/-- User.findById: first document whose id equals the argument. -/
def findById : DB → Nat → Option StoredUser
  | [], _ => none
  | u :: rest, i => if u.id = i then some u else findById rest i

/-- Whether a document matches the or-query on username or email used by
loginuser; an absent field matches nothing. -/
def matchesIdentity (un em : Option String) (u : StoredUser) : Bool :=
  (match un with
   | some s => u.username == s
   | none => false)
  ||
  (match em with
   | some s => u.email == s
   | none => false)

/-- User.findOne with the or-query on username and email: first matching
document. -/
def findOneByIdentity : DB → Option String → Option String → Option StoredUser
  | [], _, _ => none
  | u :: rest, un, em =>
    if matchesIdentity un em u then some u else findOneByIdentity rest un em

/-- user.save: write the document back over every stored document carrying
its id. -/
def saveUser : DB → StoredUser → DB
  | [], _ => []
  | v :: rest, u => (if v.id = u.id then u else v) :: saveUser rest u

/-- Modelled from the spec: user.generateAccessToken from
src/models/user.model.js (not under src). Mints a short-lived signed token
for the user id with the access secret (spec 4.1 issueAccess). -/
def generateAccessToken (u : StoredUser) (now : Nat) : Token :=
  sign ACCESS_TOKEN_SECRET u.id now (now + ACCESS_TOKEN_TTL)

/-- Modelled from the spec: user.generateRefreshToken from
src/models/user.model.js (not under src). Mints a long-lived signed token
for the user id with the refresh secret (spec 4.1 issueRefresh). -/
def generateRefreshToken (u : StoredUser) (now : Nat) : Token :=
  sign REFRESH_TOKEN_SECRET u.id now (now + REFRESH_TOKEN_TTL)

/-- Modelled from the spec: the salted one-way password hash behind the user
model (spec 4.3); only its one-way comparison matters here. -/
def hashPassword (p : String) : String :=
  String.append "hashed:" p

/-- Modelled from the spec: user.isPassWordCorrect from
src/models/user.model.js (not under src). Spec 4.3: a boolean comparison of
the plaintext against the stored hash; an absent plaintext matches no hash. -/
def isPassWordCorrect (u : StoredUser) (plaintext : Option String) : Bool :=
  match plaintext with
  | none => false
  | some p => hashPassword p == u.password

/-- The structured error thrown across the controllers: an HTTP status code
and a message, as in src/utils/ApiError.js. -/
structure ApiError where
  statusCode : Nat
  message : String
deriving DecidableEq, Repr

/-- The pair returned by generateAccessAndRefereshTokens: an object with
fields accessToken and refreshToken. -/
structure TokenPair where
  accessToken : Token
  refreshToken : Token
deriving DecidableEq, Repr

/-- The try-block body of generateAccessAndRefereshTokens
(user.controller.js lines 11 to 29): find the user by id, throw 404 when
absent, mint both tokens, store the refresh token on the user document and
save it, and return the pair. -/
def generateTokensAttempt (db : DB) (now userId : Nat) :
    Except ApiError (DB × TokenPair) :=
  match findById db userId with
  | none => .error { statusCode := 404, message := "User not found" }
  | some user =>
    let accessToken := generateAccessToken user now
    let refreshToken := generateRefreshToken user now
    let user2 := { user with refreshToken := some refreshToken }
    .ok (saveUser db user2, { accessToken := accessToken, refreshToken := refreshToken })

/-- generateAccessAndRefereshTokens (user.controller.js lines 10 to 34): the
catch block replaces any failure of the body with a single 500 error. -/
def generateAccessAndRefereshTokens (db : DB) (now userId : Nat) :
    Except ApiError (DB × TokenPair) :=
  match generateTokensAttempt db now userId with
  | .error _ =>
    .error { statusCode := 500, message := "Error generating refresh and access tokens" }
  | .ok r => .ok r

/-- The login request body: each field may be absent. -/
structure LoginBody where
  username : Option String
  email : Option String
  password : Option String
deriving DecidableEq, Repr

/-- JavaScript truthiness of an optional string: absent and empty are falsy. -/
def truthy : Option String → Bool
  | none => false
  | some s => !(s == "")

/-- The sanitized User view produced by select with password and
refreshToken excluded: only the remaining schema fields are present. -/
structure SafeUser where
  id : Nat
  username : String
  email : String
  fullName : String
deriving DecidableEq, Repr

/-- Projection of a stored document to the sanitized view (the select call
excluding password and refreshToken). -/
def toSafeUser (u : StoredUser) : SafeUser :=
  { id := u.id, username := u.username, email := u.email, fullName := u.fullName }

/-- The successful login response: status, the two set cookies in order, and
the JSON body fields (user view, both tokens, message). -/
structure LoginResp where
  status : Nat
  cookies : List (String × Option Token)
  user : Option SafeUser
  accessToken : Token
  refreshToken : Token
  message : String
deriving DecidableEq, Repr

/-- loginuser (user.controller.js lines 110 to 169): require a truthy
username or email, find the user by the or-query, 404 when absent, check the
password, 401 on mismatch, mint and persist tokens, re-read the user
sanitized, and answer 200 with both tokens as cookies and body fields. -/
def loginuser (db : DB) (now : Nat) (body : LoginBody) :
    Except ApiError (DB × LoginResp) :=
  if !(truthy body.username || truthy body.email) then
    .error { statusCode := 400, message := "Username or email is required" }
  else
    match findOneByIdentity db body.username body.email with
    | none => .error { statusCode := 404, message := "User does not exist" }
    | some user =>
      if !(isPassWordCorrect user body.password) then
        .error { statusCode := 401, message := "Invalid user credentials" }
      else
        match generateAccessAndRefereshTokens db now user.id with
        | .error e => .error e
        | .ok (db2, pair) =>
          let loggedInUser := (findById db2 user.id).map toSafeUser
          .ok (db2,
            { status := 200,
              cookies := [("accessToken", some pair.accessToken), ("refreshToken", some pair.refreshToken)],
              user := loggedInUser,
              accessToken := pair.accessToken,
              refreshToken := pair.refreshToken,
              message := "User logged in successfully" })

/-- A value inside a Mongo update document: undefined, null, a token string,
or a nested document. -/
inductive UVal where
  | vUndefined
  | vNull
  | vToken (t : Token)
  | vDoc (fields : List (String × UVal))
deriving Repr

/-- Modelled from the documented behaviour of the store layer (Mongoose is
not repository source): findByIdAndUpdate wraps an update document that has
no dollar-operators in a set operation over its top-level keys; the cast then
drops keys that are not schema paths (under the default strict schema) and
strips undefined values before the write. The one schema path the session
core ever updates is refreshToken (spec 3 and 4.2): a null value clears it
and a token value overwrites it; every other key, and an undefined value,
leaves the document unchanged. -/
def castSetField (u : StoredUser) : String × UVal → StoredUser
  | ("refreshToken", .vNull) => { u with refreshToken := none }
  | ("refreshToken", .vToken t) => { u with refreshToken := some t }
  | _ => u

/-- Application of an update document to a stored document: fold the cast
over the top-level key-value pairs. -/
def applyUpdateDoc (u : StoredUser) (doc : List (String × UVal)) : StoredUser :=
  doc.foldl castSetField u

/-- User.findByIdAndUpdate: apply the update document to the document with
the given id, if any, and persist the result. -/
def findByIdAndUpdate (db : DB) (i : Nat) (doc : List (String × UVal)) : DB :=
  match findById db i with
  | none => db
  | some u => saveUser db (applyUpdateDoc u doc)

/-- The literal update document logOutUser passes (user.controller.js lines
176 to 179): a single top-level key named set — not the dollar-set
operator — whose value is a nested document mapping refreshToken to
undefined. -/
def logoutUpdateDoc : List (String × UVal) :=
  [("set", .vDoc [("refreshToken", .vUndefined)])]

/-- The logout response: status, the two cookie calls, and the message. The
cookie calls pass the options object where the value argument belongs, so no
token value is set; both entries are modelled as none. -/
structure LogoutResp where
  status : Nat
  cookies : List (String × Option Token)
  message : String
deriving DecidableEq, Repr

/-- logOutUser (user.controller.js lines 172 to 198): run findByIdAndUpdate
with the literal update document and answer 200 unconditionally. -/
def logOutUser (db : DB) (userId : Nat) : DB × LogoutResp :=
  let db2 := findByIdAndUpdate db userId logoutUpdateDoc
  (db2,
    { status := 200,
      cookies := [("accessToken", none), ("refreshToken", none)],
      message := "User logout successfuly" })

/-- The refresh request: a token may arrive in the cookie or in the body. -/
structure RefreshReq where
  cookieRefreshToken : Option Token
  bodyRefreshToken : Option Token
deriving DecidableEq, Repr

/-- The or-expression selecting the incoming token: the cookie token when
present, else the body token. -/
def incomingToken (req : RefreshReq) : Option Token :=
  match req.cookieRefreshToken with
  | some t => some t
  | none => req.bodyRefreshToken

/-- The successful refresh response: status, the two set cookies, and the
JSON body fields. The body destructures a property named newRefreshToken
from an object whose property is named refreshToken, so the value placed in
the refresh cookie and in the body field is undefined, modelled as none. -/
structure RefreshResp where
  status : Nat
  cookies : List (String × Option Token)
  accessToken : Token
  refreshToken : Option Token
  message : String
deriving DecidableEq, Repr

/-- The read-and-compare phase of the refresh try block (user.controller.js
lines 213 to 229): verify the token with the refresh secret, load the user
by the decoded subject id, 401 when absent, and reject with the reuse
message when the presented token is not exactly the stored one. Errors carry
only their message because the catch block forwards only the message. -/
def refreshReadCompare (db : DB) (now : Nat) (tok : Token) :
    Except String StoredUser :=
  match jwtVerify REFRESH_TOKEN_SECRET now tok with
  | .error e => .error (verifyErrMsg e)
  | .ok subjectId =>
    match findById db subjectId with
    | none => .error "Invalid refresh token"
    | some user =>
      if user.refreshToken ≠ some tok then .error "Refresh token is expired or used"
      else .ok user

/-- The write phase of the refresh try block (user.controller.js lines 237
to 252): mint and persist a fresh pair via generateAccessAndRefereshTokens
and build the 200 response. The destructured newRefreshToken property does
not exist on the returned object, so the refresh cookie and body field hold
none. -/
def refreshWrite (db : DB) (now : Nat) (user : StoredUser) :
    Except String (DB × RefreshResp) :=
  match generateAccessAndRefereshTokens db now user.id with
  | .error e => .error e.message
  | .ok (db2, pair) =>
    .ok (db2,
      { status := 200,
        cookies := [("accessToken", some pair.accessToken), ("refreshToken", none)],
        accessToken := pair.accessToken,
        refreshToken := none,
        message := "Access token refreshed" })

/-- The whole try block of refreshAccessToken: read-and-compare, then write. -/
def refreshAttempt (db : DB) (now : Nat) (tok : Token) :
    Except String (DB × RefreshResp) :=
  match refreshReadCompare db now tok with
  | .error m => .error m
  | .ok user => refreshWrite db now user

/-- The catch block of refreshAccessToken (user.controller.js lines 253 to
256): any error thrown inside the try block becomes a 401 carrying the
message of that error, or the fallback message when it is empty. -/
def wrapCatch (r : Except String (DB × RefreshResp)) :
    Except ApiError (DB × RefreshResp) :=
  match r with
  | .error m =>
    .error { statusCode := 401, message := if m == "" then "Invalid refresh token" else m }
  | .ok x => .ok x

/-- refreshAccessToken (user.controller.js lines 201 to 257): 401 when no
token is presented; otherwise run the try block under the catch. -/
def refreshAccessToken (db : DB) (now : Nat) (req : RefreshReq) :
    Except ApiError (DB × RefreshResp) :=
  match incomingToken req with
  | none => .error { statusCode := 401, message := "Unauthorized request" }
  | some tok => wrapCatch (refreshAttempt db now tok)

/-- Interleaved execution of two concurrent refresh calls A and B presenting
the same token. The try block awaits the store at the write inside
generateAccessAndRefereshTokens, so under the cooperative scheduling model
(spec 5) call B can run its whole read-and-compare phase after A compared
but before A wrote. This definition runs both compares against the initial
store, then the A write, then the B write against the store A produced; when
a phase fails the remaining phases of the other call still run sequentially. -/
def twoRefreshInterleaved (db : DB) (nowA nowB : Nat) (tok : Token) :
    Except ApiError (DB × RefreshResp) × Except ApiError (DB × RefreshResp) :=
  match refreshReadCompare db nowA tok with
  | .error m => (wrapCatch (.error m), wrapCatch (refreshAttempt db nowB tok))
  | .ok ua =>
    match refreshReadCompare db nowB tok with
    | .error m => (wrapCatch (refreshWrite db nowA ua), wrapCatch (.error m))
    | .ok ub =>
      match refreshWrite db nowA ua with
      | .error m => (wrapCatch (.error m), wrapCatch (refreshWrite db nowB ub))
      | .ok (db1, ra) => (.ok (db1, ra), wrapCatch (refreshWrite db1 nowB ub))

/-- Externally visible outcome of a refresh call: its HTTP status and
message, whether it succeeded or failed. -/
def refreshOutcome : Except ApiError (DB × RefreshResp) → Nat × String
  | .ok (_, r) => (r.status, r.message)
  | .error e => (e.statusCode, e.message)

/-- Test fixture: the refresh token stored for the fixture user, minted at
instant 5. -/
def aliceToken0 : Token := sign REFRESH_TOKEN_SECRET 1 5 (5 + REFRESH_TOKEN_TTL)

/-- Test fixture: a stored user holding a current refresh credential. -/
def alice : StoredUser :=
  { id := 1, username := "alice", email := "alice@mail.test",
    password := hashPassword "correct-pw", fullName := "Alice", refreshToken := some aliceToken0 }

/-- Test fixture: a store holding the one fixture user. -/
def db0 : DB := [alice]

/-- Test fixture: the access token a refresh of the fixture user at instant
6 mints. -/
def aliceNewAccess : Token := sign ACCESS_TOKEN_SECRET 1 6 (6 + ACCESS_TOKEN_TTL)

/-- Test fixture: the refresh token a refresh of the fixture user at instant
6 mints and persists. -/
def aliceNewRefresh : Token := sign REFRESH_TOKEN_SECRET 1 6 (6 + REFRESH_TOKEN_TTL)

/-- Test fixture: the fixture user after the rotation at instant 6. -/
def aliceRotated : StoredUser := { alice with refreshToken := some aliceNewRefresh }

/-- Test fixture: the response of the successful refresh at instant 6. -/
def refreshRespRotated : RefreshResp :=
  { status := 200,
    cookies := [("accessToken", some aliceNewAccess), ("refreshToken", none)],
    accessToken := aliceNewAccess,
    refreshToken := none,
    message := "Access token refreshed" }

/-- Test fixture: the response of the successful login of the fixture user
at instant 6. -/
def loginRespFixture : LoginResp :=
  { status := 200,
    cookies := [("accessToken", some aliceNewAccess), ("refreshToken", some aliceNewRefresh)],
    user := some (toSafeUser aliceRotated),
    accessToken := aliceNewAccess,
    refreshToken := aliceNewRefresh,
    message := "User logged in successfully" }

/-- Test fixture: a validly signed refresh token for the fixture user whose
expiry instant 3 is already past at instant 5. -/
def expiredTok : Token := sign REFRESH_TOKEN_SECRET 1 0 3

/-- A document returned by findById carries the id it was looked up by. -/
theorem findById_id {db : DB} {i : Nat} {u : StoredUser}
    (h : findById db i = some u) : u.id = i := by
  induction db with
  | nil => simp [findById] at h
  | cons v rest ih =>
    unfold findById at h
    split at h
    · next hv => injection h with h2; subst h2; exact hv
    · exact ih h

/-- Saving a document over an id that findById resolves makes findById
return the saved document. -/
theorem findById_saveUser {db : DB} {i : Nat} {u v : StoredUser}
    (h : findById db i = some u) (hv : v.id = i) :
    findById (saveUser db v) i = some v := by
  induction db with
  | nil => simp [findById] at h
  | cons w rest ih =>
    by_cases hw : w.id = i
    · have hwv : w.id = v.id := by rw [hw, hv]
      simp [saveUser, findById, hwv, hv]
    · have hwv : ¬ w.id = v.id := fun hh => hw (by rw [hh, hv])
      have h2 : findById rest i = some u := by
        unfold findById at h
        rwa [if_neg hw] at h
      simp only [saveUser, findById, if_neg hwv, if_neg hw]
      exact ih h2

/-- When the user id resolves, generateAccessAndRefereshTokens succeeds and
persists the freshly minted refresh token on that document, returning both
minted tokens, with no condition on the previously stored value. -/
theorem generateTokens_ok {db : DB} {now userId : Nat} {user : StoredUser}
    (h : findById db userId = some user) :
    generateAccessAndRefereshTokens db now userId =
      .ok (saveUser db { user with refreshToken := some (generateRefreshToken user now) },
        { accessToken := generateAccessToken user now,
          refreshToken := generateRefreshToken user now }) := by
  unfold generateAccessAndRefereshTokens generateTokensAttempt
  rw [h]

/-- When the user id does not resolve, generateAccessAndRefereshTokens
fails with the single 500 error. -/
theorem generateTokens_err {db : DB} {now userId : Nat}
    (h : findById db userId = none) :
    generateAccessAndRefereshTokens db now userId =
      .error { statusCode := 500, message := "Error generating refresh and access tokens" } := by
  unfold generateAccessAndRefereshTokens generateTokensAttempt
  rw [h]

/-- Inversion of a successful token verification. -/
theorem jwtVerify_ok {secret now : Nat} {t : Token} {s : Nat}
    (h : jwtVerify secret now t = .ok s) :
    s = t.payload.id ∧ now < t.payload.exp ∧ t.sig = mac secret t.payload := by
  unfold jwtVerify at h
  split at h
  · exact absurd h (by simp)
  · split at h
    · exact absurd h (by simp)
    · next hexp hsig =>
      injection h with h2
      exact ⟨h2.symm, by omega, not_not.mp hsig⟩

/-- Inversion of a successful read-and-compare phase: the token verified,
the subject resolved to the returned user, and the stored credential equals
the presented token. -/
theorem refreshReadCompare_ok {db : DB} {now : Nat} {tok : Token} {user : StoredUser}
    (h : refreshReadCompare db now tok = .ok user) :
    jwtVerify REFRESH_TOKEN_SECRET now tok = .ok tok.payload.id ∧
    findById db tok.payload.id = some user ∧
    user.refreshToken = some tok := by
  unfold refreshReadCompare at h
  split at h
  · simp at h
  · next s hV =>
    obtain ⟨hs, -, -⟩ := jwtVerify_ok hV
    subst hs
    split at h
    · simp at h
    · next u hF =>
      split at h
      · simp at h
      · next hne =>
        injection h with h2
        subst h2
        exact ⟨hV, hF, not_not.mp hne⟩

/-- When the read-and-compare fails, the whole call fails with 401 carrying
the thrown message. -/
theorem refreshAccessToken_of_readCompare_error {db : DB} {now : Nat} {tok : Token} {m : String}
    (h : refreshReadCompare db now tok = .error m) (hm : (m == "") = false) :
    refreshAccessToken db now { cookieRefreshToken := some tok, bodyRefreshToken := none } =
      .error { statusCode := 401, message := m } := by
  simp [refreshAccessToken, incomingToken, refreshAttempt, h, wrapCatch, hm]

/-- A presented token that verifies and resolves but does not equal the
stored credential makes the refresh call fail with the reuse error. -/
theorem refresh_reuse_error {db : DB} {now : Nat} {tok : Token} {s : Nat} {user : StoredUser}
    (hV : jwtVerify REFRESH_TOKEN_SECRET now tok = .ok s)
    (hF : findById db s = some user)
    (hne : user.refreshToken ≠ some tok) :
    refreshAccessToken db now { cookieRefreshToken := some tok, bodyRefreshToken := none } =
      .error { statusCode := 401, message := "Refresh token is expired or used" } := by
  have hrc : refreshReadCompare db now tok = .error "Refresh token is expired or used" := by
    simp [refreshReadCompare, hV, hF, hne]
  exact refreshAccessToken_of_readCompare_error hrc (by decide)

/-- Inversion of a successful refresh call: the token verified, the subject
resolved to a user storing exactly the presented token, the store was
rotated to the freshly minted refresh token, and the response carries no
refresh token. -/
theorem refreshAccessToken_ok {db : DB} {now : Nat} {tok : Token} {r : DB × RefreshResp}
    (h : refreshAccessToken db now { cookieRefreshToken := some tok, bodyRefreshToken := none } = .ok r) :
    ∃ user,
      jwtVerify REFRESH_TOKEN_SECRET now tok = .ok tok.payload.id ∧
      findById db tok.payload.id = some user ∧
      user.refreshToken = some tok ∧
      r.1 = saveUser db { user with refreshToken := some (generateRefreshToken user now) } ∧
      r.2.refreshToken = none ∧
      r.2.accessToken = generateAccessToken user now ∧
      r.2.cookies = [("accessToken", some (generateAccessToken user now)), ("refreshToken", none)] ∧
      r.2.status = 200 := by
  unfold refreshAccessToken incomingToken at h
  have h2 : wrapCatch (refreshAttempt db now tok) = .ok r := h
  unfold refreshAttempt at h2
  split at h2
  · next m hrc => simp [wrapCatch] at h2
  · next user hrc =>
    obtain ⟨hV, hF, hstore⟩ := refreshReadCompare_ok hrc
    have hFu : findById db user.id = some user := by
      rw [findById_id hF]; exact hF
    unfold refreshWrite at h2
    rw [generateTokens_ok hFu] at h2
    simp only [wrapCatch] at h2
    injection h2 with h3
    subst h3
    exact ⟨user, hV, hF, hstore, rfl, rfl, rfl, rfl, rfl⟩

/-- Inversion of a successful login: the identity resolved, the password
matched, the freshly minted refresh token was persisted on the document the
generation step looked up, and the response carries both minted tokens as
cookies and body fields together with the re-read sanitized user view. -/
theorem loginuser_ok {db : DB} {now : Nat} {body : LoginBody} {r : DB × LoginResp}
    (h : loginuser db now body = .ok r) :
    ∃ user0 user,
      findOneByIdentity db body.username body.email = some user0 ∧
      findById db user0.id = some user ∧
      isPassWordCorrect user0 body.password = true ∧
      r.1 = saveUser db { user with refreshToken := some (generateRefreshToken user now) } ∧
      r.2.refreshToken = generateRefreshToken user now ∧
      r.2.accessToken = generateAccessToken user now ∧
      r.2.user = (findById r.1 user0.id).map toSafeUser ∧
      r.2.cookies = [("accessToken", some r.2.accessToken), ("refreshToken", some r.2.refreshToken)] ∧
      r.2.status = 200 := by
  unfold loginuser at h
  split at h
  · simp at h
  · split at h
    · simp at h
    · next user0 hfind =>
      split at h
      · simp at h
      · next hpw =>
        cases hg : findById db user0.id with
        | none =>
          rw [generateTokens_err hg] at h
          simp at h
        | some user =>
          rw [generateTokens_ok hg] at h
          injection h with h2
          subst h2
          exact ⟨user0, user, hfind, hg, by simpa using hpw, rfl, rfl, rfl, rfl, rfl, rfl⟩

/-- C1: a refresh call whose presented token verifies under the refresh
secret and whose decoded subject resolves to a user fails with the reuse
error unless the token equals the stored credential byte for byte; and after
one successful refresh with a token, which rotates the stored credential to
a different token, a second refresh presenting the same token fails with the
reuse error. -/
theorem C1_token_reuse_rejected :
    (∀ (db : DB) (now : Nat) (tok : Token) (s : Nat) (user : StoredUser),
      jwtVerify REFRESH_TOKEN_SECRET now tok = .ok s →
      findById db s = some user →
      user.refreshToken ≠ some tok →
      refreshAccessToken db now { cookieRefreshToken := some tok, bodyRefreshToken := none } =
        .error { statusCode := 401, message := "Refresh token is expired or used" }) ∧
    (∀ (db : DB) (now now2 : Nat) (tok : Token) (user : StoredUser) (r : DB × RefreshResp),
      findById db tok.payload.id = some user →
      refreshAccessToken db now { cookieRefreshToken := some tok, bodyRefreshToken := none } = .ok r →
      generateRefreshToken user now ≠ tok →
      jwtVerify REFRESH_TOKEN_SECRET now2 tok = .ok tok.payload.id →
      refreshAccessToken r.1 now2 { cookieRefreshToken := some tok, bodyRefreshToken := none } =
        .error { statusCode := 401, message := "Refresh token is expired or used" }) := by
  constructor
  · intro db now tok s user hV hF hne
    exact refresh_reuse_error hV hF hne
  · intro db now now2 tok user r hF0 hok hne hV2
    obtain ⟨user1, hV, hF, hstore, hr1, -, -, -, -⟩ := refreshAccessToken_ok hok
    rw [hF] at hF0
    injection hF0 with he
    subst he
    have hid0 : user1.id = tok.payload.id := findById_id hF
    have hid : ({ user1 with refreshToken := some (generateRefreshToken user1 now) } : StoredUser).id
        = tok.payload.id := hid0
    have hF2 : findById r.1 tok.payload.id
        = some { user1 with refreshToken := some (generateRefreshToken user1 now) } := by
      rw [hr1]
      exact findById_saveUser hF hid
    refine refresh_reuse_error hV2 hF2 ?_
    intro hh
    exact hne (Option.some.inj hh)

/-- Witness for C1 at the fixture store: the rotation at instant 6 succeeds,
and replaying the same token at instant 8 is rejected with the reuse error. -/
theorem C1_witness :
    refreshAccessToken [aliceRotated] 8
        { cookieRefreshToken := some aliceToken0, bodyRefreshToken := none } =
      .error { statusCode := 401, message := "Refresh token is expired or used" } :=
  C1_token_reuse_rejected.2 db0 6 8 aliceToken0 alice ([aliceRotated], refreshRespRotated)
    (by rfl) (by rfl) (by decide) (by rfl)

/-- C2 evaluated at the failing input: logging out the fixture user leaves
the store unchanged — the update document passes the key named set, not the
dollar-set operator, with an undefined value, so the cast drops it and the
stored refresh credential survives — and a subsequent refresh presenting the
pre-logout token still succeeds with 200 rather than failing. -/
theorem C2_logout_leaves_credential :
    (logOutUser db0 1).1 = db0 ∧
    (findById (logOutUser db0 1).1 1).map StoredUser.refreshToken = some (some aliceToken0) ∧
    refreshOutcome (refreshAccessToken (logOutUser db0 1).1 6
        { cookieRefreshToken := some aliceToken0, bodyRefreshToken := none }) =
      (200, "Access token refreshed") :=
  ⟨by decide, by decide, by decide⟩

/-- C3 evaluated at the failing input: a refresh whose presented token
matches the stored credential rotates the store to the freshly minted
refresh token, yet the response carries no refresh token in the cookie and
none in the body field, because the code destructures a property named
newRefreshToken that the returned object does not have. -/
theorem C3_new_refresh_token_not_returned :
    refreshAccessToken db0 6 { cookieRefreshToken := some aliceToken0, bodyRefreshToken := none } =
      .ok ([aliceRotated], refreshRespRotated) ∧
    aliceRotated.refreshToken = some aliceNewRefresh ∧
    aliceNewRefresh ≠ aliceToken0 ∧
    refreshRespRotated.refreshToken = none ∧
    refreshRespRotated.cookies = [("accessToken", some aliceNewAccess), ("refreshToken", none)] :=
  ⟨by rfl, by rfl, by decide, by rfl, by rfl⟩

/-- C9: any failure of the token-generation body — in particular the subject
id not resolving to a user, which the body signals as a 404 — is replaced by
the single 500 error with the fixed message, and that error is the only one
generateAccessAndRefereshTokens can produce, so the original failure kind
never reaches the caller. -/
theorem C9_generation_failure_masked :
    (∀ (db : DB) (now userId : Nat),
      findById db userId = none →
      generateTokensAttempt db now userId =
        .error { statusCode := 404, message := "User not found" }) ∧
    (∀ (db : DB) (now userId : Nat) (e : ApiError),
      generateTokensAttempt db now userId = .error e →
      generateAccessAndRefereshTokens db now userId =
        .error { statusCode := 500, message := "Error generating refresh and access tokens" }) ∧
    (∀ (db : DB) (now userId : Nat) (e : ApiError),
      generateAccessAndRefereshTokens db now userId = .error e →
      e = { statusCode := 500, message := "Error generating refresh and access tokens" }) := by
  refine ⟨?_, ?_, ?_⟩
  · intro db now userId h
    unfold generateTokensAttempt
    rw [h]
  · intro db now userId e h
    unfold generateAccessAndRefereshTokens
    rw [h]
  · intro db now userId e h
    unfold generateAccessAndRefereshTokens at h
    split at h
    · injection h with h2
      exact h2.symm
    · simp at h

/-- Witness for C9 on an empty store: the body fails with the 404, and the
function surfaces only the 500 with the fixed message. -/
theorem C9_witness :
    generateTokensAttempt [] 0 7 = .error { statusCode := 404, message := "User not found" } ∧
    generateAccessAndRefereshTokens [] 0 7 =
      .error { statusCode := 500, message := "Error generating refresh and access tokens" } :=
  ⟨C9_generation_failure_masked.1 [] 0 7 (by rfl),
   C9_generation_failure_masked.2.1 [] 0 7 { statusCode := 404, message := "User not found" } (by rfl)⟩

/-- C4: after every successful login, the stored refresh credential of the
user returned in the response equals, byte for byte, the refresh token the
response returns. -/
theorem C4_login_persists_returned_refresh :
    ∀ (db : DB) (now : Nat) (body : LoginBody) (r : DB × LoginResp),
      loginuser db now body = .ok r →
      ∃ su u2,
        r.2.user = some su ∧
        findById r.1 su.id = some u2 ∧
        u2.refreshToken = some r.2.refreshToken := by
  intro db now body r h
  obtain ⟨user0, user, hfind, hg, hpw, hr1, hrt, hat, huser, hck, hst⟩ := loginuser_ok h
  have hid : user.id = user0.id := findById_id hg
  have hid2 : ({ user with refreshToken := some (generateRefreshToken user now) } : StoredUser).id
      = user0.id := hid
  have hF2 : findById r.1 user0.id
      = some { user with refreshToken := some (generateRefreshToken user now) } := by
    rw [hr1]
    exact findById_saveUser hg hid2
  refine ⟨toSafeUser { user with refreshToken := some (generateRefreshToken user now) },
          { user with refreshToken := some (generateRefreshToken user now) }, ?_, ?_, ?_⟩
  · rw [huser, hF2]
    rfl
  · rw [← hid] at hF2
    exact hF2
  · rw [hrt]

/-- Witness for C4: the fixture login at instant 6 succeeds, and the stored
credential of the returned user equals the returned refresh token. -/
theorem C4_witness :
    ∃ su u2,
      (([aliceRotated], loginRespFixture) : DB × LoginResp).2.user = some su ∧
      findById (([aliceRotated], loginRespFixture) : DB × LoginResp).1 su.id = some u2 ∧
      u2.refreshToken = some (([aliceRotated], loginRespFixture) : DB × LoginResp).2.refreshToken :=
  C4_login_persists_returned_refresh db0 6
    { username := some "alice", email := none, password := some "correct-pw" }
    ([aliceRotated], loginRespFixture) (by rfl)

/-- C6: a token whose expiry is at or before the current time fails
verification with Expired whatever its signature, and a refresh presenting
it fails with 401 Expired for every store, never resolving a subject; an
unexpired token with an invalid signature makes the refresh fail with 401
InvalidSignature. -/
theorem C6_expired_token_rejected :
    (∀ (now : Nat) (t : Token), t.payload.exp ≤ now →
      jwtVerify REFRESH_TOKEN_SECRET now t = .error .Expired) ∧
    (∀ (db : DB) (now : Nat) (t : Token), t.payload.exp ≤ now →
      refreshAccessToken db now { cookieRefreshToken := some t, bodyRefreshToken := none } =
        .error { statusCode := 401, message := "Expired" }) ∧
    (∀ (db : DB) (now : Nat) (t : Token), now < t.payload.exp →
      t.sig ≠ mac REFRESH_TOKEN_SECRET t.payload →
      refreshAccessToken db now { cookieRefreshToken := some t, bodyRefreshToken := none } =
        .error { statusCode := 401, message := "InvalidSignature" }) := by
  refine ⟨?_, ?_, ?_⟩
  · intro now t h
    unfold jwtVerify
    rw [if_pos h]
  · intro db now t h
    have hv : jwtVerify REFRESH_TOKEN_SECRET now t = .error .Expired := by
      unfold jwtVerify
      rw [if_pos h]
    have hrc : refreshReadCompare db now t = .error "Expired" := by
      unfold refreshReadCompare
      rw [hv]
      rfl
    exact refreshAccessToken_of_readCompare_error hrc (by decide)
  · intro db now t h hsig
    have hv : jwtVerify REFRESH_TOKEN_SECRET now t = .error .InvalidSignature := by
      unfold jwtVerify
      rw [if_neg (by omega), if_pos hsig]
    have hrc : refreshReadCompare db now t = .error "InvalidSignature" := by
      unfold refreshReadCompare
      rw [hv]
      rfl
    exact refreshAccessToken_of_readCompare_error hrc (by decide)

/-- Witness for C6: the fixture token expiring at instant 3 is rejected at
instant 5 with 401 Expired, for a store that even holds it as current. -/
theorem C6_witness :
    expiredTok.payload.exp ≤ 5 ∧
    refreshAccessToken db0 5 { cookieRefreshToken := some expiredTok, bodyRefreshToken := none } =
      .error { statusCode := 401, message := "Expired" } :=
  ⟨by decide, C6_expired_token_rejected.2.1 db0 5 expiredTok (by decide)⟩

/-- C7 counterexample: at the fixture store, a login for an unknown identity
and a login for the stored user with a wrong password fail with different
statuses and different messages, so the two failures are externally
distinguishable, contrary to the claim. -/
theorem C7_counterexample :
    loginuser db0 6 { username := some "bob", email := none, password := some "correct-pw" } =
      .error { statusCode := 404, message := "User does not exist" } ∧
    loginuser db0 6 { username := some "alice", email := none, password := some "wrong-pw" } =
      .error { statusCode := 401, message := "Invalid user credentials" } ∧
    ({ statusCode := 404, message := "User does not exist" } : ApiError) ≠
      { statusCode := 401, message := "Invalid user credentials" } :=
  ⟨by rfl, by rfl, by decide⟩

/-- C7 amended: login with an identity matching no user fails with the 404
not-found error, and login with a non-matching password fails with the 401
invalid-credentials error; the two failures differ in status and message. -/
theorem C7_login_failures_distinguishable :
    ∀ (db : DB) (now : Nat) (body : LoginBody),
      (truthy body.username || truthy body.email) = true →
      (findOneByIdentity db body.username body.email = none →
        loginuser db now body = .error { statusCode := 404, message := "User does not exist" }) ∧
      (∀ user, findOneByIdentity db body.username body.email = some user →
        isPassWordCorrect user body.password = false →
        loginuser db now body = .error { statusCode := 401, message := "Invalid user credentials" }) := by
  intro db now body hid
  constructor
  · intro h
    unfold loginuser
    simp [hid, h]
  · intro user h hpw
    unfold loginuser
    simp [hid, h, hpw]

/-- Witness for C7 amended, at the fixture store. -/
theorem C7_witness :
    loginuser db0 6 { username := some "bob", email := none, password := some "correct-pw" } =
      .error { statusCode := 404, message := "User does not exist" } ∧
    loginuser db0 6 { username := some "alice", email := none, password := some "wrong-pw" } =
      .error { statusCode := 401, message := "Invalid user credentials" } :=
  ⟨(C7_login_failures_distinguishable db0 6
      { username := some "bob", email := none, password := some "correct-pw" } (by decide)).1 (by rfl),
   (C7_login_failures_distinguishable db0 6
      { username := some "alice", email := none, password := some "wrong-pw" } (by decide)).2
      alice (by rfl) (by decide)⟩

/-- C8: every successful login answers 200 with the two token cookies
matching the body token fields and with a sanitized user view; the view is a
function of only the id, username, email and full name, so the password hash
and the stored refresh token are excluded from it. -/
theorem C8_login_response_sanitized :
    (∀ (db : DB) (now : Nat) (body : LoginBody) (r : DB × LoginResp),
      loginuser db now body = .ok r →
      r.2.cookies = [("accessToken", some r.2.accessToken), ("refreshToken", some r.2.refreshToken)] ∧
      r.2.status = 200 ∧
      ∃ u, r.2.user = some (toSafeUser u)) ∧
    (∀ u v : StoredUser, u.id = v.id → u.username = v.username → u.email = v.email →
      u.fullName = v.fullName → toSafeUser u = toSafeUser v) := by
  constructor
  · intro db now body r h
    obtain ⟨user0, user, hfind, hg, hpw, hr1, hrt, hat, huser, hck, hst⟩ := loginuser_ok h
    have hid : user.id = user0.id := findById_id hg
    have hid2 : ({ user with refreshToken := some (generateRefreshToken user now) } : StoredUser).id
        = user0.id := hid
    have hF2 : findById r.1 user0.id
        = some { user with refreshToken := some (generateRefreshToken user now) } := by
      rw [hr1]
      exact findById_saveUser hg hid2
    refine ⟨hck, hst, { user with refreshToken := some (generateRefreshToken user now) }, ?_⟩
    rw [huser, hF2]
    rfl
  · intro u v h1 h2 h3 h4
    simp [toSafeUser, h1, h2, h3, h4]

/-- Witness for C8: the fixture login at instant 6 answers with matching
cookies and a sanitized view, and the view of two users differing only in
password and stored credential is one and the same. -/
theorem C8_witness :
    (loginRespFixture.cookies =
      [("accessToken", some loginRespFixture.accessToken),
       ("refreshToken", some loginRespFixture.refreshToken)] ∧
     loginRespFixture.status = 200 ∧
     ∃ u, loginRespFixture.user = some (toSafeUser u)) ∧
    toSafeUser alice = toSafeUser aliceRotated :=
  ⟨(C8_login_response_sanitized.1 db0 6
      { username := some "alice", email := none, password := some "correct-pw" }
      ([aliceRotated], loginRespFixture) (by rfl) : _),
   C8_login_response_sanitized.2 alice aliceRotated (by decide) (by decide) (by decide) (by decide)⟩

/-- C10: the only precondition login checks is that a username or an email
is truthy; a body carrying an identity but no password at all is not
rejected with the 400 validation error, and when the identity resolves the
call proceeds to the password comparison, which the absent plaintext fails,
yielding the 401 invalid-credentials error. -/
theorem C10_missing_password_not_validated :
    ∀ (db : DB) (now : Nat) (body : LoginBody),
      body.password = none →
      (truthy body.username || truthy body.email) = true →
      loginuser db now body ≠
        .error { statusCode := 400, message := "Username or email is required" } ∧
      (∀ user, findOneByIdentity db body.username body.email = some user →
        loginuser db now body = .error { statusCode := 401, message := "Invalid user credentials" }) := by
  intro db now body hpw hid
  have hcmp : ∀ user : StoredUser, isPassWordCorrect user body.password = false := by
    intro user
    rw [hpw]
    rfl
  constructor
  · cases hf : findOneByIdentity db body.username body.email with
    | none =>
      intro hcontra
      unfold loginuser at hcontra
      simp [hid, hf] at hcontra
    | some user =>
      intro hcontra
      unfold loginuser at hcontra
      simp [hid, hf, hcmp user] at hcontra
  · intro user hf
    unfold loginuser
    simp [hid, hf, hcmp user]

/-- Witness for C10: at the fixture store, a body naming the stored user
with no password is not rejected by validation and reaches the password
comparison, failing with the 401 invalid-credentials error. -/
theorem C10_witness :
    loginuser db0 6 { username := some "alice", email := none, password := none } ≠
      .error { statusCode := 400, message := "Username or email is required" } ∧
    loginuser db0 6 { username := some "alice", email := none, password := none } =
      .error { statusCode := 401, message := "Invalid user credentials" } :=
  ⟨(C10_missing_password_not_validated db0 6
      { username := some "alice", email := none, password := none } (by rfl) (by decide)).1,
   (C10_missing_password_not_validated db0 6
      { username := some "alice", email := none, password := none } (by rfl) (by decide)).2
      alice (by rfl)⟩

/-- C5 counterexample: at the fixture store, two refresh calls presenting
the same stored token, interleaved so that both compare before either
writes, both answer 200; the losing caller does not receive the reuse
error, refuting the claim that the rotation write is conditional. -/
theorem C5_counterexample :
    refreshOutcome (twoRefreshInterleaved db0 6 7 aliceToken0).1 = (200, "Access token refreshed") ∧
    refreshOutcome (twoRefreshInterleaved db0 6 7 aliceToken0).2 = (200, "Access token refreshed") :=
  ⟨by decide, by decide⟩

/-- C5 amended: the write phase of rotation is an unconditional save that
does not re-check the presented token at write time, so whenever the
read-and-compare phases of two interleaved refresh calls presenting the same
token both pass against the initial store, both calls answer 200 and the
losing caller does not receive the reuse error. -/
theorem C5_rotation_write_unconditional :
    ∀ (db : DB) (nowA nowB : Nat) (tok : Token) (user : StoredUser),
      refreshReadCompare db nowA tok = .ok user →
      refreshReadCompare db nowB tok = .ok user →
      refreshOutcome (twoRefreshInterleaved db nowA nowB tok).1 = (200, "Access token refreshed") ∧
      refreshOutcome (twoRefreshInterleaved db nowA nowB tok).2 = (200, "Access token refreshed") := by
  intro db nowA nowB tok user hA hB
  obtain ⟨-, hF, -⟩ := refreshReadCompare_ok hA
  have hFu : findById db user.id = some user := by
    rw [findById_id hF]
    exact hF
  have key := @generateTokens_ok db nowA user.id user hFu
  have hFu2 : findById (saveUser db { user with refreshToken := some (generateRefreshToken user nowA) }) user.id
      = some { user with refreshToken := some (generateRefreshToken user nowA) } :=
    findById_saveUser hFu rfl
  have key2 := @generateTokens_ok (saveUser db { user with refreshToken := some (generateRefreshToken user nowA) })
    nowB user.id { user with refreshToken := some (generateRefreshToken user nowA) } hFu2
  constructor
  · simp [twoRefreshInterleaved, hA, hB, refreshWrite, key, refreshOutcome]
  · simp [twoRefreshInterleaved, hA, hB, refreshWrite, key, key2, refreshOutcome, wrapCatch]

/-- Witness for C5 amended, at the fixture store with the compares at
instants 6 and 7. -/
theorem C5_witness :
    refreshReadCompare db0 7 aliceToken0 = .ok alice ∧
    refreshOutcome (twoRefreshInterleaved db0 6 7 aliceToken0).2 = (200, "Access token refreshed") :=
  ⟨by rfl, (C5_rotation_write_unconditional db0 6 7 aliceToken0 alice (by rfl) (by rfl)).2⟩

end BackendNode
